import Mathlib

/-!
Shallow embedding of the mky_bot trading system (Go) for specification checking.

The embedding translates, from the source:
  * `models`            : Candle, Order, OrderAudit, OrderStatusEntity, OrderResponse
  * `services`          : OrderService.CreateOrder / UpdateOrderResult / UpdateOrderStatus /
                          UpdateOrderPnL / validateOrder (src/services/order_service.go)
  * `worker`            : DogeTradingSystemWorker.extractCandlesForChecks,
                          checkWallAndSupportBreak, calculateGreenCandlesAverageVolume,
                          calculateRedCandlesAverageVolume, calculateMaxQuantity,
                          placeLongOrder, placeShortOrder, isPostionActive, and the
                          retry block of executeTradingCycle (src/worker/doge_trading_system.go)

Modelling conventions:
  * Go float64 values are modelled as rationals (ℚ).  The one place where the source
    can divide by zero (the volume-confirmation quotient) is modelled by `GoFloat`,
    which carries the IEEE-754 special values produced by Go division.
  * The database (gorm/SQLite) is a pure state `DBState`; collaborator failures
    (repository create failing, audit insert failing) are injected through Boolean
    flags, mirroring the spec's treatment of the store as an external collaborator.
  * Go slice expressions `a[lo:hi]` panic when `lo < 0`; `goSlice` returns `none`
    in exactly the situations where Go panics, and panics are propagated as
    explicit `crash` / `panics` results.
-/

/-- models.Candle (timestamp, OHLCV).  `open_` is the Go field `Open`
(`open` is a Lean keyword). -/
structure Candle where
  timestamp : ℤ
  open_ : ℚ
  high : ℚ
  low : ℚ
  close : ℚ
  volume : ℚ
deriving DecidableEq

instance : Inhabited Candle := ⟨⟨0, 0, 0, 0, 0, 0⟩⟩

/-- models.OrderSideType: "Buy" (long) or "Sell" (short). -/
inductive OrderSideType where
  | Buy
  | Sell
deriving DecidableEq

/-- models.OrderResult: business outcome of the trade. -/
inductive OrderResult where
  | Profit
  | Loss
  | Pending
  | Done
deriving DecidableEq

/-- String representation used by the audit rows (`string(order.Result)` in Go). -/
def orderResultToString : OrderResult → String
  | .Profit => "Profit"
  | .Loss => "Loss"
  | .Pending => "Pending"
  | .Done => "Done"

/-- models.OrderStatusEntity (lookup table row). -/
structure OrderStatusEntity where
  id : ℕ
  statusName : String
  descr : String
  isActive : Bool
deriving DecidableEq

/-- models.Order — the central mutable entity (timestamps omitted; they are
database-managed and no claim mentions them). -/
structure Order where
  orderID : String
  symbol : String
  side : OrderSideType
  orderPrice : ℚ
  quantity : ℚ
  takeProfitPrice : Option ℚ
  stopLossPrice : Option ℚ
  orderStatusID : ℕ
  result : OrderResult
  pnl : ℚ
  pnlPercentage : ℚ
deriving DecidableEq

/-- models.OrderAudit — append-only audit row (ChangedAt omitted: database clock). -/
structure OrderAudit where
  orderID : String
  fieldName : String
  oldValue : Option String
  newValue : Option String
  changedBy : String
deriving DecidableEq

/-- The persistent store: the three tables of the schema. -/
structure DBState where
  orders : List Order
  audits : List OrderAudit
  statuses : List OrderStatusEntity
deriving DecidableEq

/-- models.Order.CalculatePnL: PnL from a supplied current price (mutates the order). -/
def calculatePnL (o : Order) (currentPrice : ℚ) : Order :=
  let pnl := if o.side = .Buy then (currentPrice - o.orderPrice) * o.quantity
             else (o.orderPrice - currentPrice) * o.quantity
  let o1 := { o with pnl := pnl }
  if o.orderPrice ≠ 0 then
    { o1 with pnlPercentage := pnl / (o.orderPrice * o.quantity) * 100 }
  else o1

/-- models.Order.BeforeCreate gorm hook, result-normalisation part: a Result outside
{Profit, Loss, Pending} is reset to Pending before the row is stored.  (The hook's
validation part duplicates checks of `validateOrder`, which has always run first on
this path, so only the normalisation is observable.) -/
def hookNormalizeResult (o : Order) : Order :=
  if o.result = .Profit ∨ o.result = .Loss ∨ o.result = .Pending then o
  else { o with result := .Pending }

/-- The take-profit block of OrderService.validateOrder
(src/services/order_service.go lines 310-321), checks in source order. -/
def validateTakeProfit (o : Order) : Except String Unit :=
  match o.takeProfitPrice with
  | none => .ok ()
  | some tp =>
    if tp ≤ 0 then .error "take profit price must be positive"
    else if o.side = .Buy ∧ tp ≤ o.orderPrice then
      .error "take profit price must be greater than order price for Buy orders"
    else if o.side = .Sell ∧ o.orderPrice ≤ tp then
      .error "take profit price must be less than order price for Sell orders"
    else .ok ()

/-- The stop-loss block of OrderService.validateOrder
(src/services/order_service.go lines 323-334), checks in source order. -/
def validateStopLoss (o : Order) : Except String Unit :=
  match o.stopLossPrice with
  | none => .ok ()
  | some sl =>
    if sl ≤ 0 then .error "stop loss price must be positive"
    else if o.side = .Buy ∧ o.orderPrice ≤ sl then
      .error "stop loss price must be less than order price for Buy orders"
    else if o.side = .Sell ∧ sl ≤ o.orderPrice then
      .error "stop loss price must be greater than order price for Sell orders"
    else .ok ()

/-- OrderService.validateOrder (src/services/order_service.go): business
validation — the base checks, then the take-profit block, then the stop-loss
block, each returning the first error hit, in source order. -/
def validateOrder (o : Order) : Except String Unit :=
  if o.orderID = "" then .error "order ID is required"
  else if o.symbol = "" then .error "symbol is required"
  else if o.orderPrice ≤ 0 then .error "order price must be positive"
  else if o.quantity ≤ 0 then .error "quantity must be positive"
  else if o.side ≠ .Buy ∧ o.side ≠ .Sell then .error "invalid order side"
  else
    match validateTakeProfit o with
    | .error e => .error e
    | .ok () => validateStopLoss o

/-- `Except.isError` as a Bool. -/
def isErr {ε α : Type} (e : Except ε α) : Bool :=
  match e with
  | .error _ => true
  | .ok _ => false

/-- OrderService.CreateOrder (src/services/order_service.go lines 25-68).
`createFails` injects a store failure of `Order().Create`; `auditFails` injects a
failure of `OrderAudit().Create`.  Faithful point: the audit write is OUTSIDE any
transaction and its failure only prints a warning — the order creation still
succeeds (source comment: "Log dell'errore ma non fallisce la creazione"). -/
def CreateOrder (createFails auditFails : Bool) (db : DBState) (order : Order) :
    Except String Unit × DBState :=
  match validateOrder order with
  | .error e => (.error ("order validation failed: " ++ e), db)
  | .ok () =>
    if db.orders.any (fun o => o.orderID = order.orderID) then
      (.error ("order with ID " ++ order.orderID ++ " already exists"), db)
    else
      match db.statuses.find? (fun st => st.id = order.orderStatusID) with
      | none => (.error "invalid order status", db)
      | some st =>
        if ¬st.isActive then (.error ("order status " ++ st.statusName ++ " is not active"), db)
        else if createFails then (.error "failed to create order", db)
        else
          let db1 : DBState := { db with orders := db.orders ++ [hookNormalizeResult order] }
          if auditFails then
            (.ok (), db1)
          else
            let audit : OrderAudit :=
              { orderID := order.orderID, fieldName := "created", oldValue := none,
                newValue := some "Order created", changedBy := "system" }
            (.ok (), { db1 with audits := db1.audits ++ [audit] })

/-- OrderService.UpdateOrderResult (src/services/order_service.go lines 162-205):
transactional result update; the audit row is written in the same transaction and
its failure rolls the whole transaction back. -/
def UpdateOrderResult (auditFails : Bool) (db : DBState) (orderID : String)
    (result : OrderResult) : Except String Unit × DBState :=
  match db.orders.find? (fun o => o.orderID = orderID) with
  | none => (.error "failed to get order", db)
  | some order =>
    if order.result = result then (.ok (), db)
    else
      let updated := db.orders.map
        (fun o => if o.orderID = orderID then { o with result := result } else o)
      if auditFails then (.error "failed to create audit record", db)
      else
        let audit : OrderAudit :=
          { orderID := orderID, fieldName := "result",
            oldValue := some (orderResultToString order.result),
            newValue := some (orderResultToString result), changedBy := "system" }
        (.ok (), { db with orders := updated, audits := db.audits ++ [audit] })

/-- OrderService.UpdateOrderStatus (src/services/order_service.go lines 110-159):
transactional status update with same-transaction audit; audit failure rolls back. -/
def UpdateOrderStatus (auditFails : Bool) (db : DBState) (orderID statusName : String) :
    Except String Unit × DBState :=
  match db.statuses.find? (fun st => st.statusName = statusName) with
  | none => (.error "invalid order status", db)
  | some status =>
    match db.orders.find? (fun o => o.orderID = orderID) with
    | none => (.error "failed to get order", db)
    | some order =>
      if order.orderStatusID = status.id then (.ok (), db)
      else
        let updated := db.orders.map
          (fun o => if o.orderID = orderID then { o with orderStatusID := status.id } else o)
        if auditFails then (.error "failed to create audit record", db)
        else
          let audit : OrderAudit :=
            { orderID := orderID, fieldName := "order_status_id",
              oldValue := some (toString order.orderStatusID),
              newValue := some (toString status.id), changedBy := "system" }
          (.ok (), { db with orders := updated, audits := db.audits ++ [audit] })

/-- Audit value string for the pnl_update row.  The source formats with
`%.8f` / `%.4f`; the exact decimal rendering is abstracted to `toString` —
no claim inspects these characters, only the row's presence. -/
def fmtPnl (pnl pct : ℚ) : String :=
  "PnL: " ++ toString pnl ++ ", PnL%: " ++ toString pct

/-- OrderService.UpdateOrderPnL (src/services/order_service.go lines 208-252):
transactional PnL update; audit failure rolls back.  Faithful detail: the source
builds the audit row AFTER `order.CalculatePnL` has mutated `order`, so old and
new value strings both show the freshly computed figures. -/
def UpdateOrderPnL (auditFails : Bool) (db : DBState) (orderID : String)
    (currentPrice : ℚ) : Except String Unit × DBState :=
  match db.orders.find? (fun o => o.orderID = orderID) with
  | none => (.error "failed to get order", db)
  | some order =>
    let newOrder := calculatePnL order currentPrice
    let updated := db.orders.map
      (fun o => if o.orderID = orderID then
          { o with pnl := newOrder.pnl, pnlPercentage := newOrder.pnlPercentage } else o)
    if auditFails then (.error "failed to create audit record", db)
    else
      let audit : OrderAudit :=
        { orderID := orderID, fieldName := "pnl_update",
          oldValue := some (fmtPnl newOrder.pnl newOrder.pnlPercentage),
          newValue := some (fmtPnl newOrder.pnl newOrder.pnlPercentage),
          changedBy := "system" }
      (.ok (), { db with orders := updated, audits := db.audits ++ [audit] })

/-- OrderService.GetOrdersByResult: the Pending-order query used by the reconciler. -/
def GetOrdersByResult (db : DBState) (result : OrderResult) : List Order :=
  db.orders.filter (fun o => decide (o.result = result))

/-- DogeTradingSystemWorker.isPostionActive (src/worker/doge_trading_system.go
lines 755-788).  `positionsCount` is the length of the exchange's active-position
list.  Faithful detail: when `UpdateOrderResult` fails, the source returns the
(nil) error of the earlier GetPositions call, hence `(false, none)`. -/
def isPostionActive (auditFails : Bool) (db : DBState) (positionsCount : ℕ) :
    (Bool × Option String) × DBState :=
  let pending := GetOrdersByResult db .Pending
  if 0 < positionsCount then
    match pending with
    | [] => ((true, none), db)
    | o :: _ =>
      let r := UpdateOrderResult auditFails db o.orderID .Done
      match r.1 with
      | .error _ => ((false, none), r.2)
      | .ok _ => ((true, none), r.2)
  else ((false, none), db)

/-- Go float64 value restricted to the operations the volume-confirmation code
performs: the quotient of two finite sums, comparison against a constant, and
scaling by a positive constant.  IEEE-754 special values from division by zero
are represented explicitly. -/
inductive GoFloat where
  | fin (q : ℚ)
  | posInf
  | negInf
  | nan
deriving DecidableEq

/-- Go float64 division `a / b` for finite operands: b = 0 produces NaN (0/0)
or a signed infinity, exactly as in Go. -/
def fdiv (a b : ℚ) : GoFloat :=
  if b = 0 then
    if a = 0 then .nan else if 0 < a then .posInf else .negInf
  else .fin (a / b)

/-- Go comparison `x > c` for a possibly-special x and finite c
(NaN compares false). -/
def gfGt (x : GoFloat) (c : ℚ) : Bool :=
  match x with
  | .fin q => c < q
  | .posInf => true
  | .negInf => false
  | .nan => false

/-- Go multiplication `x * c` for a positive finite constant c
(Inf·c = Inf, NaN·c = NaN). -/
def gfScale (x : GoFloat) (c : ℚ) : GoFloat :=
  match x with
  | .fin q => .fin (q * c)
  | .posInf => .posInf
  | .negInf => .negInf
  | .nan => .nan

/-- Go comparison `v > x` for finite v and possibly-special x
(NaN compares false). -/
def gfLtVol (v : ℚ) (x : GoFloat) : Bool :=
  match x with
  | .fin q => q < v
  | .posInf => false
  | .negInf => true
  | .nan => false

/-- First loop of calculateGreenCandlesAverageVolume: walk backward from index
`i` down to 1, accumulating the volume of green candles (Close > Open) until ten
have been counted.  The call starts at `len - 2`. -/
def greenScan (c : List Candle) : ℕ → ℚ → ℕ → ℚ × ℕ
  | 0, vol, cnt => (vol, cnt)
  | i + 1, vol, cnt =>
    if cnt < 10 then
      let cd := c.getD (i + 1) default
      if cd.open_ < cd.close then greenScan c i (vol + cd.volume) (cnt + 1)
      else greenScan c i vol cnt
    else (vol, cnt)

/-- Second loop of calculateGreenCandlesAverageVolume, translated as written in
the source: the loop guard re-tests `greenCandlesCount < 10` (a value this loop
never changes), the body adds into `greenCandlesAverageVolume` (the matching-volume
accumulator) and only increments `generalCandlesCount`;
`generalCandlesAverageVolume` (threaded through as `genvol`) is never assigned. -/
def greenGeneralScan (c : List Candle) (greenCnt : ℕ) :
    ℕ → ℚ → ℚ → ℕ → ℚ × ℚ × ℕ
  | 0, gvol, genvol, gencnt => (gvol, genvol, gencnt)
  | i + 1, gvol, genvol, gencnt =>
    if greenCnt < 10 then
      greenGeneralScan c greenCnt i (gvol + (c.getD (i + 1) default).volume) genvol (gencnt + 1)
    else (gvol, genvol, gencnt)

/-- DogeTradingSystemWorker.calculateGreenCandlesAverageVolume
(src/worker/doge_trading_system.go lines 838-859): returns
`greenCandlesAverageVolume / generalCandlesAverageVolume` with both loops as in
the source. -/
def calculateGreenCandlesAverageVolume (c : List Candle) : GoFloat :=
  let p1 := greenScan c (c.length - 2) 0 0
  let p2 := greenGeneralScan c p1.2 (c.length - 2) p1.1 0 0
  fdiv p2.1 p2.2.1

/-- First loop of calculateRedCandlesAverageVolume: accumulate volume of red
candles (Close < Open) walking backward until ten have been counted. -/
def redScan (c : List Candle) : ℕ → ℚ → ℕ → ℚ × ℕ
  | 0, vol, cnt => (vol, cnt)
  | i + 1, vol, cnt =>
    if cnt < 10 then
      let cd := c.getD (i + 1) default
      if cd.close < cd.open_ then redScan c i (vol + cd.volume) (cnt + 1)
      else redScan c i vol cnt
    else (vol, cnt)

/-- Second loop of calculateRedCandlesAverageVolume: accumulate the general
volume of the ten most recent closed candles (guard `generalCandlesCount < 10`,
accumulator `generalCandlesAverageVolume` — this twin is wired correctly). -/
def redGeneralScan (c : List Candle) : ℕ → ℚ → ℕ → ℚ × ℕ
  | 0, genvol, gencnt => (genvol, gencnt)
  | i + 1, genvol, gencnt =>
    if gencnt < 10 then
      redGeneralScan c i (genvol + (c.getD (i + 1) default).volume) (gencnt + 1)
    else (genvol, gencnt)

/-- DogeTradingSystemWorker.calculateRedCandlesAverageVolume
(src/worker/doge_trading_system.go lines 861-882). -/
def calculateRedCandlesAverageVolume (c : List Candle) : GoFloat :=
  let p1 := redScan c (c.length - 2) 0 0
  let p2 := redGeneralScan c (c.length - 2) 0 0
  fdiv p1.1 p2.1

/-- The long-side volume confirmation of executeTradingCycle (line 147):
`greenCandlesVolumeTotAvg > 0.6 && currentClosedCandle.Volume > greenCandlesVolumeTotAvg*1.2`. -/
def longVolumeConfirm (c : List Candle) : Bool :=
  let g := calculateGreenCandlesAverageVolume c
  let breaking := c.getD (c.length - 2) default
  gfGt g (6/10) && gfLtVol breaking.volume (gfScale g (12/10))

/-- The short-side volume confirmation of executeTradingCycle (line 187). -/
def shortVolumeConfirm (c : List Candle) : Bool :=
  let r := calculateRedCandlesAverageVolume c
  let breaking := c.getD (c.length - 2) default
  gfGt r (6/10) && gfLtVol breaking.volume (gfScale r (12/10))

/-- Go slice expression `c[lo:hi]`: defined when `0 ≤ lo ≤ hi ≤ len c`,
a runtime panic (`none`) otherwise. -/
def goSlice (c : List Candle) (lo hi : ℤ) : Option (List Candle) :=
  if 0 ≤ lo ∧ lo ≤ hi ∧ hi ≤ (c.length : ℤ) then
    some ((c.take hi.toNat).drop lo.toNat)
  else none

/-- math.MaxFloat64, exactly: (2 − 2⁻⁵²)·2¹⁰²³. -/
def maxFloat64 : ℚ := 2 ^ 1024 - 2 ^ 971

/-- One step of the running maximum: `if wall < candle.High { wall = candle.High }`. -/
def runMax (x y : ℚ) : ℚ := if x < y then y else x

/-- One step of the running minimum: `if candle.Low < support { support = candle.Low }`. -/
def runMin (x y : ℚ) : ℚ := if y < x then y else x

/-- The wall/support loop of extractCandlesForChecks: one pass computing the
running maximum of highs (seeded with 0.0) and minimum of lows (seeded with
math.MaxFloat64). -/
def wallSupportScan (window : List Candle) : ℚ × ℚ :=
  window.foldl
    (fun acc cd => (runMax acc.1 cd.high, runMin acc.2 cd.low))
    (0, maxFloat64)

/-- Result of extractCandlesForChecks: a returned error, a Go runtime panic,
or the extracted window with wall and support. -/
inductive ExtractResult where
  | err (msg : String)
  | crash
  | ok (window : List Candle) (wall support : ℚ)
deriving DecidableEq

/-- DogeTradingSystemWorker.extractCandlesForChecks
(src/worker/doge_trading_system.go lines 424-452): guard `len < 72`, then the
slice `taCandlesticks[len-74 : len-2]` (which panics in Go when `len-74 < 0`,
i.e. for lengths 72 and 73), then the wall/support pass. -/
def extractCandlesForChecks (c : List Candle) : ExtractResult :=
  if c.length < 72 then
    .err ("not enough candles for checks. Need at least 5, got " ++ toString c.length)
  else
    match goSlice c ((c.length : ℤ) - 74) ((c.length : ℤ) - 2) with
    | none => .crash
    | some window =>
      let ws := wallSupportScan window
      .ok window ws.1 ws.2

/-- DogeTradingSystemWorker.checkWallAndSupportBreak
(src/worker/doge_trading_system.go lines 459-481): (wallBreak, supportBreak)
for the last closed candle against the precomputed wall and support; the two
branches are an if / else-if, so at most one fires. -/
def checkWallAndSupportBreak (currentClosedCandle : Candle) (lastCandles : List Candle)
    (wall support : ℚ) : Bool × Bool :=
  if lastCandles.length < 72 then (false, false)
  else if wall < currentClosedCandle.close then (true, false)
  else if currentClosedCandle.close < support then (false, true)
  else (false, false)

/-- DogeTradingSystemWorker.fetchLast1000Candles, data part
(src/worker/doge_trading_system.go line 354): the exchange collaborator delivers
the candles most-recent-first (Bybit kline order) and the worker reverses them in
place, so the analysed series is chronologically ascending. -/
def fetchLast1000Candles (exchangeCandles : List Candle) : List Candle :=
  exchangeCandles.reverse

/-- Outcome of the candle-analysis prefix of executeTradingCycle. -/
inductive CyclePhaseResult where
  | panics
  | errorReturn
  | breakout (wallBreak supportBreak : Bool)
deriving DecidableEq

/-- Lines 123-131 of executeTradingCycle: run extractCandlesForChecks, read
`Candles[len-2]` (this index is read BEFORE the error check, so a series shorter
than 2 panics even though extract returned an error), and on success run the
breakout check. -/
def cycleBreakoutPhase (c : List Candle) : CyclePhaseResult :=
  match extractCandlesForChecks c with
  | .crash => .panics
  | .err _ => if c.length < 2 then .panics else .errorReturn
  | .ok window wall support =>
    let breaking := c.getD (c.length - 2) default
    let p := checkWallAndSupportBreak breaking window wall support
    .breakout p.1 p.2

/-- models.OrderResponse (exchange placement acknowledgment), reduced to the
fields the worker reads. -/
structure OrderResponse where
  orderID : String
  orderLinkID : String
  status : String
  errorCode : String
  errorMessage : String
deriving DecidableEq

/-- OrderResponse.IsSuccess (src/strategy/strategy.go line 124):
`ErrorCode == "" || ErrorCode == "0"`. -/
def OrderResponse.isSuccess (r : OrderResponse) : Bool :=
  r.errorCode = "" || r.errorCode = "0"

/-- The fixed Bybit-status translation table of mapBybitStatusToOrderStatusID
(src/worker/doge_trading_system.go lines 249-259). -/
def statusMap : List (String × String) :=
  [("New", "New"), ("PartiallyFilled", "PartiallyFilled"), ("Filled", "Filled"),
   ("Cancelled", "Cancelled"), ("Rejected", "Rejected"), ("Untriggered", "Untriggered"),
   ("Triggered", "Triggered"), ("Deactivated", "Deactivated"),
   ("PartiallyFilledCanceled", "PartiallyFilledCanceled")]

/-- DogeTradingSystemWorker.mapBybitStatusToOrderStatusID
(src/worker/doge_trading_system.go lines 247-277): unknown statuses default to
"New"; the mapped name is then resolved to a database id. -/
def mapBybitStatusToOrderStatusID (db : DBState) (bybitStatus : String) :
    Except String ℕ :=
  let mapped := ((statusMap.lookup bybitStatus).getD "New")
  match db.statuses.find? (fun st => st.statusName = mapped) with
  | none => .error ("failed to get order status " ++ mapped)
  | some st => .ok st.id

/-- DogeTradingSystemWorker.createOrderFromBybitResponse
(src/worker/doge_trading_system.go lines 280-306): builds the local Order row
from the exchange acknowledgment.  Faithful point: `Side` is hard-coded to
`models.OrderSideTypeBuy` (source comment "Sempre Buy per ordini LONG") — also
when the caller is placeShortOrder. -/
def createOrderFromBybitResponse (db : DBState) (resp : OrderResponse)
    (triggerPrice quantity takeProfit stopLoss : ℚ) : Except String Order :=
  match mapBybitStatusToOrderStatusID db resp.status with
  | .error e => .error ("failed to map Bybit status: " ++ e)
  | .ok sid =>
    .ok { orderID := resp.orderID, symbol := "DOGEUSDT", side := .Buy,
          orderPrice := triggerPrice, quantity := quantity,
          takeProfitPrice := some takeProfit, stopLossPrice := some stopLoss,
          orderStatusID := sid, result := .Pending, pnl := 0, pnlPercentage := 0 }

/-- DogeTradingSystemWorker.calculateMaxQuantity
(src/worker/doge_trading_system.go lines 795-816): 0 for a non-positive price or
a failed balance query, otherwise the plain quotient balance / price — the
source applies no floor or rounding. -/
def calculateMaxQuantity (balanceResult : Except String ℚ) (price : ℚ) : ℚ :=
  if price ≤ 0 then 0
  else
    match balanceResult with
    | .error _ => 0
    | .ok usdtBalance => usdtBalance / price

/-- calculateLongStopLoss: price · (1 − slPercentage). -/
def calculateLongStopLoss (price slPercentage : ℚ) : ℚ := price * (1 - slPercentage)

/-- calculateLongTakeProfit: price · (1 + tpPercentage). -/
def calculateLongTakeProfit (price tpPercentage : ℚ) : ℚ := price * (1 + tpPercentage)

/-- calculateShortStopLoss: price · (1 + percentage). -/
def calculateShortStopLoss (price pct : ℚ) : ℚ := price * (1 + pct)

/-- calculateShortTakeProfit: price · (1 − percentage). -/
def calculateShortTakeProfit (price pct : ℚ) : ℚ := price * (1 - pct)

/-- Behaviour of the external collaborators during one placement attempt. -/
structure PlaceEnv where
  processorConfigured : Bool
  balanceResult : Except String ℚ
  placeResult : Except String OrderResponse
  orderCreateFails : Bool
  auditCreateFails : Bool

/-- Observable side channel of one placement attempt: whether the exchange was
called, and whether the "placed on Bybit but NOT saved to the database" warning
(the placed-but-unrecorded failure class) was emitted. -/
structure PlaceTrace where
  exchangeCalled : Bool
  placedUnrecordedWarning : Bool
deriving DecidableEq

/-- The worker's mutable state: the `orderPlaced` single-flight flag and the store. -/
structure WorkerState where
  orderPlaced : Bool
  db : DBState
deriving DecidableEq

/-- Result of one placeLongOrder/placeShortOrder call: the returned order-id
string ("" on failure), the worker state after the call, and the trace. -/
structure PlaceOutcome where
  orderID : String
  state : WorkerState
  trace : PlaceTrace
deriving DecidableEq

/-- DogeTradingSystemWorker.placeLongOrder
(src/worker/doge_trading_system.go lines 488-584). Guards in source order:
processor configured, trigger price > 0, quantity > 0; then the exchange call;
on success the Order row is built and persisted, and on a persistence failure
the exchange order id is still returned while the placed-but-unrecorded warning
is emitted; the orderPlaced flag is set only after successful persistence. -/
def placeLongOrder (env : PlaceEnv) (st : WorkerState) (currentPrice : ℚ) : PlaceOutcome :=
  if ¬env.processorConfigured then ⟨"", st, ⟨false, false⟩⟩
  else
    let triggerPrice := currentPrice
    if triggerPrice ≤ 0 then ⟨"", st, ⟨false, false⟩⟩
    else
      let quantity := calculateMaxQuantity env.balanceResult triggerPrice
      if quantity ≤ 0 then ⟨"", st, ⟨false, false⟩⟩
      else
        let takeProfit := calculateLongTakeProfit currentPrice (3/100)
        let stopLoss := calculateLongStopLoss currentPrice (8/1000)
        match env.placeResult with
        | .error _ => ⟨"", st, ⟨true, false⟩⟩
        | .ok longOrder =>
          if ¬longOrder.isSuccess then ⟨"", st, ⟨true, false⟩⟩
          else
            match createOrderFromBybitResponse st.db longOrder currentPrice quantity
                takeProfit stopLoss with
            | .error _ => ⟨longOrder.orderID, st, ⟨true, true⟩⟩
            | .ok dbOrder =>
              let saved := CreateOrder env.orderCreateFails env.auditCreateFails st.db dbOrder
              match saved.1 with
              | .error _ => ⟨longOrder.orderID, { st with db := saved.2 }, ⟨true, true⟩⟩
              | .ok _ => ⟨longOrder.orderID, ⟨true, saved.2⟩, ⟨true, false⟩⟩

/-- DogeTradingSystemWorker.placeShortOrder
(src/worker/doge_trading_system.go lines 587-685): identical shape to
placeLongOrder with the short take-profit/stop-loss offsets. -/
def placeShortOrder (env : PlaceEnv) (st : WorkerState) (currentPrice : ℚ) : PlaceOutcome :=
  if ¬env.processorConfigured then ⟨"", st, ⟨false, false⟩⟩
  else
    let triggerPrice := currentPrice
    if triggerPrice ≤ 0 then ⟨"", st, ⟨false, false⟩⟩
    else
      let quantity := calculateMaxQuantity env.balanceResult triggerPrice
      if quantity ≤ 0 then ⟨"", st, ⟨false, false⟩⟩
      else
        let takeProfit := calculateShortTakeProfit currentPrice (3/100)
        let stopLoss := calculateShortStopLoss currentPrice (8/1000)
        match env.placeResult with
        | .error _ => ⟨"", st, ⟨true, false⟩⟩
        | .ok shortOrder =>
          if ¬shortOrder.isSuccess then ⟨"", st, ⟨true, false⟩⟩
          else
            match createOrderFromBybitResponse st.db shortOrder currentPrice quantity
                takeProfit stopLoss with
            | .error _ => ⟨shortOrder.orderID, st, ⟨true, true⟩⟩
            | .ok dbOrder =>
              let saved := CreateOrder env.orderCreateFails env.auditCreateFails st.db dbOrder
              match saved.1 with
              | .error _ => ⟨shortOrder.orderID, { st with db := saved.2 }, ⟨true, true⟩⟩
              | .ok _ => ⟨shortOrder.orderID, ⟨true, saved.2⟩, ⟨true, false⟩⟩

/-- Semantic "the exchange placement attempt fails" for one attempt environment:
the collaborator call errors, or the exchange returns a non-success response. -/
def placementFails (env : PlaceEnv) : Bool :=
  match env.placeResult with
  | .error _ => true
  | .ok r => !r.isSuccess

/-- The LONG retry block of executeTradingCycle
(src/worker/doge_trading_system.go lines 152-172): an initial attempt plus at
most two retries (with a fixed 1 s sleep between attempts, irrelevant to state);
returns the number of attempts actually made, the final order-id string and the
final worker state. -/
def retryPlaceLong (envs : ℕ → PlaceEnv) (st : WorkerState) (price : ℚ) :
    ℕ × String × WorkerState :=
  let o1 := placeLongOrder (envs 0) st price
  if o1.orderID = "" then
    let o2 := placeLongOrder (envs 1) o1.state price
    if o2.orderID = "" then
      let o3 := placeLongOrder (envs 2) o2.state price
      (3, o3.orderID, o3.state)
    else (2, o2.orderID, o2.state)
  else (1, o1.orderID, o1.state)

/-! ## Sample data used by concrete evaluations and witnesses -/

/-- A single candle with integral prices (high 2, low 1, close 2). -/
def sampleCandle : Candle := ⟨0, 1, 2, 1, 2, 10⟩

/-- Candle constructor for the volume-confirmation scenarios: open/close/volume
as given, high 100, low 0. -/
def mkVolCandle (o c v : ℚ) : Candle := ⟨0, o, 100, 0, c, v⟩

/-- A 13-candle series whose breaking candle (index 11 = length−2) is green with
volume 30; over the ten most recent closed candles (indices 2..11) the green
volume is 61 and the total volume is 100 — the claim's "61 %" configuration for
the long side. -/
def greenBugSeries : List Candle :=
  [mkVolCandle 2 1 1, mkVolCandle 2 1 1,
   mkVolCandle 2 1 5, mkVolCandle 2 1 5, mkVolCandle 2 1 5, mkVolCandle 2 1 5,
   mkVolCandle 2 1 5, mkVolCandle 2 1 5, mkVolCandle 2 1 9,
   mkVolCandle 1 2 11, mkVolCandle 1 2 20, mkVolCandle 1 2 30,
   mkVolCandle 1 1 999]

/-- The mirrored red series: red volume 61 of total 100 over the scanned ten
candles, breaking red candle volume 30. -/
def redSixtyOneSeries : List Candle :=
  [mkVolCandle 1 2 1, mkVolCandle 1 2 1,
   mkVolCandle 1 2 5, mkVolCandle 1 2 5, mkVolCandle 1 2 5, mkVolCandle 1 2 5,
   mkVolCandle 1 2 5, mkVolCandle 1 2 5, mkVolCandle 1 2 9,
   mkVolCandle 2 1 11, mkVolCandle 2 1 20, mkVolCandle 2 1 30,
   mkVolCandle 1 1 999]

/-- Red series with red volume exactly 60 of total 100 over the scanned ten
candles — the claim's "exactly 60 %" configuration. -/
def redSixtySeries : List Candle :=
  [mkVolCandle 1 2 1, mkVolCandle 1 2 1,
   mkVolCandle 1 2 5, mkVolCandle 1 2 5, mkVolCandle 1 2 5, mkVolCandle 1 2 5,
   mkVolCandle 1 2 5, mkVolCandle 1 2 5, mkVolCandle 1 2 10,
   mkVolCandle 2 1 10, mkVolCandle 2 1 20, mkVolCandle 2 1 30,
   mkVolCandle 1 1 999]

/-- A seed store: empty orders/audits, the "New" status row seeded active. -/
def dbSeed : DBState := ⟨[], [], [⟨1, "New", "order status New", true⟩]⟩

/-- A well-formed long order (TP 103 > price 100 > SL 99). -/
def orderSample : Order :=
  ⟨"ord-1", "DOGEUSDT", .Buy, 100, 10, some 103, some 99, 1, .Pending, 0, 0⟩

/-- A successful exchange acknowledgment. -/
def respSample : OrderResponse := ⟨"ex-77", "link-1", "New", "0", ""⟩

/-! ## Claim C4 -/

/-- C4: the claim says that for every candle series with fewer than 74 entries
the candle-extraction step fails with a precondition error, in particular
terminating with an error rather than crashing for lengths 72 and 73.  The code
guards only `len < 72` and then slices `candles[len-74 : len-2]`, so for lengths
72 and 73 the slice lower bound is negative and Go panics; the cycle crashes
instead of returning.  This theorem evaluates the embedded code at the failing
inputs: lengths 72 and 73 crash, length 71 does return the precondition error. -/
theorem c4_length72_crashes_instead_of_error :
    extractCandlesForChecks (List.replicate 72 sampleCandle) = .crash ∧
    extractCandlesForChecks (List.replicate 73 sampleCandle) = .crash ∧
    extractCandlesForChecks (List.replicate 71 sampleCandle) =
      .err "not enough candles for checks. Need at least 5, got 71" ∧
    cycleBreakoutPhase (List.replicate 72 sampleCandle) = .panics := by
  refine ⟨by decide, by decide, by decide, by decide⟩

/-! ## Claim C5 -/

/-- C5: the claim says volume confirmation is a strict `> 0.6` test on the
matching-volume / general-volume quotient for BOTH colours (green for long, red
for short), with 61 % passing when the breaking candle's volume exceeds the
quotient by 1.2×.  The red twin does implement this (evaluated below: quotient
60/100 does not confirm, 61/100 does), but in
`calculateGreenCandlesAverageVolume` the general-volume accumulator is never
assigned — its second loop re-tests the green counter and adds into the green
accumulator — so the green quotient is a division by zero (+Inf here), and the
long-side confirmation can never pass, even in the claim's 61 % configuration. -/
theorem c5_green_confirmation_divides_by_zero :
    calculateGreenCandlesAverageVolume greenBugSeries = .posInf ∧
    longVolumeConfirm greenBugSeries = false ∧
    calculateRedCandlesAverageVolume redSixtyOneSeries = .fin (61/100) ∧
    shortVolumeConfirm redSixtyOneSeries = true ∧
    calculateRedCandlesAverageVolume redSixtySeries = .fin (3/5) ∧
    shortVolumeConfirm redSixtySeries = false := by
  refine ⟨?_, ?_, ?_, ?_, ?_, ?_⟩ <;> with_unfolding_all decide

/-! ## Claim C10 -/

/-- C10: every exchange placement response converted into a local Order record —
including responses for SHORT (Sell) placements — yields an Order whose Side is
Buy; an Order persisted after a short placement therefore never records
Side = Sell. -/
theorem c10_converted_order_side_always_buy (db : DBState) (resp : OrderResponse)
    (triggerPrice quantity takeProfit stopLoss : ℚ) (o : Order)
    (h : createOrderFromBybitResponse db resp triggerPrice quantity takeProfit stopLoss =
      .ok o) :
    o.side = .Buy := by
  unfold createOrderFromBybitResponse at h
  cases hm : mapBybitStatusToOrderStatusID db resp.status with
  | error e => rw [hm] at h; cases h
  | ok sid => rw [hm] at h; cases h; rfl

/-- Witness for C10 at a concrete response/store. -/
theorem c10_converted_order_side_always_buy_witness :
    ∃ o : Order,
      createOrderFromBybitResponse dbSeed respSample 100 10 103 99 = .ok o ∧
      o.side = .Buy := by
  refine ⟨_, rfl, ?_⟩
  exact c10_converted_order_side_always_buy dbSeed respSample 100 10 103 99 _ rfl

deriving instance DecidableEq for Except

/-! ## Claim C3 -/

/-- C3 counterexample: the claim says the computed order quantity equals
⌊balance / price⌋.  The source computes the plain quotient with no floor:
with balance 10 and price 4 the code's quantity is 2.5 while the floor is 2. -/
theorem c3_counterexample_no_floor :
    calculateMaxQuantity (.ok 10) 4 = 5/2 ∧
    calculateMaxQuantity (.ok 10) 4 ≠ ((⌊(10 : ℚ) / 4⌋ : ℤ) : ℚ) := by
  constructor
  · with_unfolding_all decide
  · intro h
    rw [show ⌊(10 : ℚ) / 4⌋ = 2 by norm_num] at h
    revert h
    with_unfolding_all decide

/-- C3 amended: the order quantity computed before placement equals the exact
quotient balance / price (real division, no floor); and if the computed
quantity is ≤ 0 or the reference price is ≤ 0, placement is rejected as a
no-op — empty order id, no exchange call, no warning, worker state (store and
single-flight flag) unchanged. -/
theorem c3_quantity_and_rejection :
    (∀ b p : ℚ, 0 < p → calculateMaxQuantity (.ok b) p = b / p) ∧
    (∀ (env : PlaceEnv) (st : WorkerState) (p : ℚ), p ≤ 0 →
      placeLongOrder env st p = ⟨"", st, ⟨false, false⟩⟩) ∧
    (∀ (env : PlaceEnv) (st : WorkerState) (p : ℚ),
      calculateMaxQuantity env.balanceResult p ≤ 0 →
      placeLongOrder env st p = ⟨"", st, ⟨false, false⟩⟩) := by
  refine ⟨?_, ?_, ?_⟩
  · intro b p hp
    unfold calculateMaxQuantity
    rw [if_neg (not_le.mpr hp)]
  · intro env st p hp
    unfold placeLongOrder
    by_cases hc : env.processorConfigured <;> simp [hc, hp]
  · intro env st p hq
    unfold placeLongOrder
    by_cases hc : env.processorConfigured
    · by_cases hp : p ≤ 0 <;> simp [hc, hp, hq]
    · simp [hc]

/-- Witness for C3's amended statement: balance 10 / price 4 gives quantity
10/4, and placement attempts at price −1, or with balance 0 (quantity 0), are
no-ops. -/
theorem c3_quantity_and_rejection_witness :
    calculateMaxQuantity (.ok 10) 4 = (10 : ℚ) / 4 ∧
    placeLongOrder ⟨true, .ok 10, .error "net", false, false⟩ ⟨false, dbSeed⟩ (-1) =
      ⟨"", ⟨false, dbSeed⟩, ⟨false, false⟩⟩ ∧
    placeLongOrder ⟨true, .ok 0, .error "net", false, false⟩ ⟨false, dbSeed⟩ 4 =
      ⟨"", ⟨false, dbSeed⟩, ⟨false, false⟩⟩ := by
  refine ⟨c3_quantity_and_rejection.1 10 4 (by norm_num),
    c3_quantity_and_rejection.2.1 _ _ (-1) (by norm_num),
    c3_quantity_and_rejection.2.2 _ _ 4 ?_⟩
  with_unfolding_all decide

/-! ## Claim C1 -/

/-- C1 counterexample: the claim says every audited Order mutation — explicitly
including order creation — rolls back when the OrderAudit write fails, and the
failure is never silently dropped.  In CreateOrder the audit insert happens
outside any transaction: at this concrete input the audit write fails, yet
CreateOrder returns success, the Order row stays persisted, and no error or
audit row records the failure. -/
theorem c1_counterexample_creation_audit_not_rolled_back :
    (CreateOrder false true dbSeed orderSample).1 = .ok () ∧
    (CreateOrder false true dbSeed orderSample).2.orders = [orderSample] ∧
    dbSeed.orders = [] ∧
    (CreateOrder false true dbSeed orderSample).2.audits = dbSeed.audits := by
  refine ⟨?_, ?_, rfl, ?_⟩ <;> with_unfolding_all decide

/-- C1 amended: for the transactional update mutations (result update, status
update, PnL update) a failing audit write rolls back the whole transaction —
the call errors and the store is exactly as before; for order creation the
audit write is outside the transaction and its failure only logs a warning —
when CreateOrder succeeds under a failing audit writer, the Order row is
persisted and the audit table is untouched. -/
theorem c1_update_audit_failure_rolls_back :
    (∀ (db : DBState) (oid : String) (res : OrderResult) (o : Order),
      db.orders.find? (fun x => x.orderID = oid) = some o → o.result ≠ res →
      UpdateOrderResult true db oid res = (.error "failed to create audit record", db)) ∧
    (∀ (db : DBState) (oid sname : String) (status : OrderStatusEntity) (o : Order),
      db.statuses.find? (fun st => st.statusName = sname) = some status →
      db.orders.find? (fun x => x.orderID = oid) = some o →
      o.orderStatusID ≠ status.id →
      UpdateOrderStatus true db oid sname = (.error "failed to create audit record", db)) ∧
    (∀ (db : DBState) (oid : String) (cp : ℚ) (o : Order),
      db.orders.find? (fun x => x.orderID = oid) = some o →
      UpdateOrderPnL true db oid cp = (.error "failed to create audit record", db)) ∧
    (∀ (db : DBState) (o : Order), (CreateOrder false true db o).1 = .ok () →
      (CreateOrder false true db o).2 =
        { db with orders := db.orders ++ [hookNormalizeResult o] }) := by
  refine ⟨?_, ?_, ?_, ?_⟩
  · intro db oid res o hfind hne
    unfold UpdateOrderResult
    simp [hfind, hne]
  · intro db oid sname status o hstat hfind hne
    unfold UpdateOrderStatus
    simp [hstat, hfind, hne]
  · intro db oid cp o hfind
    unfold UpdateOrderPnL
    simp [hfind]
  · intro db o
    unfold CreateOrder
    repeat' split
    all_goals intro hok
    all_goals first
      | rfl
      | simp_all

/-- Witness for C1's amended statement at concrete stores: each update path is
rolled back with the audit error, and the creation path keeps the created row. -/
theorem c1_update_audit_failure_rolls_back_witness :
    UpdateOrderResult true ⟨[orderSample], [], [⟨1, "New", "d", true⟩]⟩ "ord-1" .Done =
      (.error "failed to create audit record",
        ⟨[orderSample], [], [⟨1, "New", "d", true⟩]⟩) ∧
    UpdateOrderStatus true ⟨[orderSample], [], [⟨2, "Filled", "d", true⟩]⟩ "ord-1" "Filled" =
      (.error "failed to create audit record",
        ⟨[orderSample], [], [⟨2, "Filled", "d", true⟩]⟩) ∧
    UpdateOrderPnL true ⟨[orderSample], [], []⟩ "ord-1" 105 =
      (.error "failed to create audit record", ⟨[orderSample], [], []⟩) ∧
    (CreateOrder false true dbSeed orderSample).2 =
      { dbSeed with orders := dbSeed.orders ++ [hookNormalizeResult orderSample] } := by
  refine ⟨c1_update_audit_failure_rolls_back.1 _ "ord-1" .Done orderSample ?_ ?_,
    c1_update_audit_failure_rolls_back.2.1 _ "ord-1" "Filled" ⟨2, "Filled", "d", true⟩
      orderSample ?_ ?_ ?_,
    c1_update_audit_failure_rolls_back.2.2.1 _ "ord-1" 105 orderSample ?_,
    c1_update_audit_failure_rolls_back.2.2.2 dbSeed orderSample ?_⟩ <;>
      with_unfolding_all decide

/-! ## Claim C2 -/

/-- C2: running the Reconciler while an exchange position is active and no local
order has Result = Pending (the order was already advanced in a prior cycle)
performs no mutation at all: it reports position-active = true with no error,
and the store — orders, audit rows, statuses — is returned unchanged.
Reconciliation is therefore idempotent once the order is Done. -/
theorem c2_reconciler_second_run_no_mutation (af : Bool) (db : DBState) (n : ℕ)
    (hpos : 0 < n) (hnp : ∀ o ∈ db.orders, o.result ≠ .Pending) :
    isPostionActive af db n = ((true, none), db) := by
  unfold isPostionActive GetOrdersByResult
  have hfilter : db.orders.filter (fun o => decide (o.result = OrderResult.Pending)) = [] := by
    rw [List.filter_eq_nil_iff]
    intro a ha
    simpa using hnp a ha
  rw [hfilter, if_pos hpos]

/-- A local order already advanced to Done by a previous reconciliation cycle. -/
def orderDone : Order := { orderSample with result := .Done }

/-- Witness for C2: one active position, one Done order — the call is the
identity on the store and reports (true, no error). -/
theorem c2_reconciler_second_run_no_mutation_witness :
    isPostionActive false ⟨[orderDone], [], [⟨1, "New", "d", true⟩]⟩ 1 =
      ((true, none), ⟨[orderDone], [], [⟨1, "New", "d", true⟩]⟩) :=
  c2_reconciler_second_run_no_mutation false _ 1 (by norm_num)
    (by with_unfolding_all decide)

/-! ## Claim C7 -/

/-- A failing placement attempt (exchange errors or rejects) returns the empty
order id and leaves the worker state — store and single-flight flag — unchanged. -/
theorem placementFails_placeLongOrder_noop (env : PlaceEnv) (st : WorkerState) (p : ℚ)
    (h : placementFails env = true) :
    (placeLongOrder env st p).orderID = "" ∧ (placeLongOrder env st p).state = st := by
  unfold placementFails at h
  unfold placeLongOrder
  by_cases hc : env.processorConfigured
  · by_cases hp : p ≤ 0
    · simp [hc, hp]
    · by_cases hq : calculateMaxQuantity env.balanceResult p ≤ 0
      · simp [hc, hp, hq]
      · cases hpl : env.placeResult with
        | error e => simp [hc, hp, hq, hpl]
        | ok r =>
          rw [hpl] at h
          have hs : r.isSuccess = false := by simpa using h
          simp [hc, hp, hq, hpl, hs]
  · simp [hc]

/-- C7: order placement is attempted at most 3 times (the retry block makes at
most three placeLongOrder calls); when the exchange placement fails on all
three attempts the cycle ends with the empty order id, exactly the initial
worker state — no Order row created and the single-flight orderPlaced flag
still false. -/
theorem c7_placement_retry_bounded (envs : ℕ → PlaceEnv) (st : WorkerState) (p : ℚ)
    (hfail : ∀ i, i < 3 → placementFails (envs i) = true)
    (hflag : st.orderPlaced = false) :
    retryPlaceLong envs st p = (3, "", st) ∧
    (retryPlaceLong envs st p).2.2.db.orders = st.db.orders ∧
    (retryPlaceLong envs st p).2.2.orderPlaced = false ∧
    (∀ (envs2 : ℕ → PlaceEnv) (st2 : WorkerState) (p2 : ℚ),
      (retryPlaceLong envs2 st2 p2).1 ≤ 3) := by
  have h0 := placementFails_placeLongOrder_noop (envs 0) st p (hfail 0 (by norm_num))
  have h1 := placementFails_placeLongOrder_noop (envs 1) st p (hfail 1 (by norm_num))
  have h2 := placementFails_placeLongOrder_noop (envs 2) st p (hfail 2 (by norm_num))
  have hmain : retryPlaceLong envs st p = (3, "", st) := by
    simp [retryPlaceLong, h0.1, h0.2, h1.1, h1.2, h2.1, h2.2]
  refine ⟨hmain, by rw [hmain], by rw [hmain]; exact hflag, ?_⟩
  intro envs2 st2 p2
  simp only [retryPlaceLong]
  split_ifs <;> simp

/-- An attempt environment whose exchange call fails with a network error. -/
def envNetFail : PlaceEnv := ⟨true, .ok 10, .error "network down", false, false⟩

/-- Witness for C7: three network-failing attempts leave the initial state. -/
theorem c7_placement_retry_bounded_witness :
    retryPlaceLong (fun _ => envNetFail) ⟨false, dbSeed⟩ 100 = (3, "", ⟨false, dbSeed⟩) :=
  (c7_placement_retry_bounded (fun _ => envNetFail) ⟨false, dbSeed⟩ 100
    (fun _ _ => rfl) rfl).1

/-! ## Claim C8 -/

/-- When the store's Create fails, CreateOrder reports an error and leaves the
store unchanged, whatever the audit collaborator does. -/
theorem createOrder_storeFailure (af : Bool) (db : DBState) (o : Order) :
    ∃ m, CreateOrder true af db o = (.error m, db) := by
  unfold CreateOrder
  repeat' split
  all_goals first
    | exact ⟨_, rfl⟩
    | simp_all

/-- C8: when the exchange acknowledges the placement but local persistence
fails, both placement functions still return the exchange order id (not the
empty failure result), the worker state is unchanged (no local record), and the
placed-but-unrecorded warning is emitted — a failure class distinct from the
placement-failure paths, which return "" with no such warning. -/
theorem c8_ack_with_persistence_failure (env : PlaceEnv) (st : WorkerState) (p : ℚ)
    (resp : OrderResponse)
    (hconf : env.processorConfigured = true)
    (hp : 0 < p) (hq : 0 < calculateMaxQuantity env.balanceResult p)
    (hplace : env.placeResult = .ok resp) (hsucc : resp.isSuccess = true)
    (hcreate : env.orderCreateFails = true) (hid : resp.orderID ≠ "") :
    placeLongOrder env st p = ⟨resp.orderID, st, ⟨true, true⟩⟩ ∧
    placeShortOrder env st p = ⟨resp.orderID, st, ⟨true, true⟩⟩ ∧
    (placeLongOrder env st p).orderID ≠ "" := by
  have hL : placeLongOrder env st p = ⟨resp.orderID, st, ⟨true, true⟩⟩ := by
    unfold placeLongOrder
    simp only [hconf, hplace, hsucc, not_le.mpr hp, not_le.mpr hq,
      not_true_eq_false, if_false, Bool.false_eq_true]
    cases hcr : createOrderFromBybitResponse st.db resp p
        (calculateMaxQuantity env.balanceResult p)
        (calculateLongTakeProfit p (3 / 100)) (calculateLongStopLoss p (8 / 1000)) with
    | error e => rfl
    | ok dbOrder =>
      simp only [hcreate]
      obtain ⟨m, hm⟩ := createOrder_storeFailure env.auditCreateFails st.db dbOrder
      rw [hm]
  have hS : placeShortOrder env st p = ⟨resp.orderID, st, ⟨true, true⟩⟩ := by
    unfold placeShortOrder
    simp only [hconf, hplace, hsucc, not_le.mpr hp, not_le.mpr hq,
      not_true_eq_false, if_false, Bool.false_eq_true]
    cases hcr : createOrderFromBybitResponse st.db resp p
        (calculateMaxQuantity env.balanceResult p)
        (calculateShortTakeProfit p (3 / 100)) (calculateShortStopLoss p (8 / 1000)) with
    | error e => rfl
    | ok dbOrder =>
      simp only [hcreate]
      obtain ⟨m, hm⟩ := createOrder_storeFailure env.auditCreateFails st.db dbOrder
      rw [hm]
  exact ⟨hL, hS, by rw [hL]; exact hid⟩

/-- Witness for C8: successful acknowledgment "ex-77", store Create failing —
both placement functions return "ex-77" with the unrecorded warning and an
unchanged state. -/
theorem c8_ack_with_persistence_failure_witness :
    placeLongOrder ⟨true, .ok 10, .ok respSample, true, false⟩ ⟨false, dbSeed⟩ 100 =
      ⟨"ex-77", ⟨false, dbSeed⟩, ⟨true, true⟩⟩ ∧
    placeShortOrder ⟨true, .ok 10, .ok respSample, true, false⟩ ⟨false, dbSeed⟩ 100 =
      ⟨"ex-77", ⟨false, dbSeed⟩, ⟨true, true⟩⟩ := by
  have h := c8_ack_with_persistence_failure ⟨true, .ok 10, .ok respSample, true, false⟩
    ⟨false, dbSeed⟩ 100 respSample rfl (by norm_num) (by with_unfolding_all decide)
    rfl (by decide) rfl (by decide)
  exact ⟨h.1, h.2.1⟩

/-! ## Claim C6: helper lemmas on the running max/min folds -/


theorem le_runMax_left (a x : ℚ) : a ≤ runMax a x := by
  unfold runMax
  split
  · exact le_of_lt (by assumption)
  · exact le_rfl

theorem le_runMax_right (a x : ℚ) : x ≤ runMax a x := by
  unfold runMax
  split
  · exact le_rfl
  · exact le_of_not_lt (by assumption)

theorem runMax_eq_or (a x : ℚ) : runMax a x = a ∨ runMax a x = x := by
  unfold runMax
  split
  · right; rfl
  · left; rfl

theorem runMin_le_left (a x : ℚ) : runMin a x ≤ a := by
  unfold runMin
  split
  · exact le_of_lt (by assumption)
  · exact le_rfl

theorem runMin_le_right (a x : ℚ) : runMin a x ≤ x := by
  unfold runMin
  split
  · exact le_rfl
  · exact le_of_not_lt (by assumption)

theorem runMin_eq_or (a x : ℚ) : runMin a x = a ∨ runMin a x = x := by
  unfold runMin
  split
  · right; rfl
  · left; rfl

theorem foldl_runMax_init_le (l : List ℚ) (a : ℚ) : a ≤ l.foldl runMax a := by
  induction l generalizing a with
  | nil => exact le_rfl
  | cons x xs ih => exact le_trans (le_runMax_left a x) (ih (runMax a x))

theorem foldl_runMax_mem_le (l : List ℚ) (a : ℚ) : ∀ x ∈ l, x ≤ l.foldl runMax a := by
  induction l generalizing a with
  | nil => intro x hx; cases hx
  | cons y ys ih =>
    intro x hx
    rcases List.mem_cons.mp hx with h | h
    · subst h
      exact le_trans (le_runMax_right a x) (foldl_runMax_init_le ys (runMax a x))
    · exact ih (runMax a y) x h

theorem foldl_runMax_eq_or_mem (l : List ℚ) (a : ℚ) :
    l.foldl runMax a = a ∨ l.foldl runMax a ∈ l := by
  induction l generalizing a with
  | nil => left; rfl
  | cons y ys ih =>
    rcases ih (runMax a y) with h | h
    · rcases runMax_eq_or a y with h2 | h2
      · left; rw [List.foldl_cons, h, h2]
      · right; rw [List.foldl_cons, h, h2]; exact List.mem_cons_self y ys
    · right; exact List.mem_cons_of_mem y h

theorem foldl_runMin_le_init (l : List ℚ) (a : ℚ) : l.foldl runMin a ≤ a := by
  induction l generalizing a with
  | nil => exact le_rfl
  | cons x xs ih => exact le_trans (ih (runMin a x)) (runMin_le_left a x)

theorem foldl_runMin_le_mem (l : List ℚ) (a : ℚ) : ∀ x ∈ l, l.foldl runMin a ≤ x := by
  induction l generalizing a with
  | nil => intro x hx; cases hx
  | cons y ys ih =>
    intro x hx
    rcases List.mem_cons.mp hx with h | h
    · subst h
      exact le_trans (foldl_runMin_le_init ys (runMin a x)) (runMin_le_right a x)
    · exact ih (runMin a y) x h

theorem foldl_runMin_eq_or_mem (l : List ℚ) (a : ℚ) :
    l.foldl runMin a = a ∨ l.foldl runMin a ∈ l := by
  induction l generalizing a with
  | nil => left; rfl
  | cons y ys ih =>
    rcases ih (runMin a y) with h | h
    · rcases runMin_eq_or a y with h2 | h2
      · left; rw [List.foldl_cons, h, h2]
      · right; rw [List.foldl_cons, h, h2]; exact List.mem_cons_self y ys
    · right; exact List.mem_cons_of_mem y h

theorem wallSupportScan_eq (l : List Candle) :
    wallSupportScan l =
      ((l.map Candle.high).foldl runMax 0, (l.map Candle.low).foldl runMin maxFloat64) := by
  suffices h : ∀ (a b : ℚ),
      l.foldl (fun acc cd => (runMax acc.1 cd.high, runMin acc.2 cd.low)) (a, b) =
        ((l.map Candle.high).foldl runMax a, (l.map Candle.low).foldl runMin b) by
    exact h 0 maxFloat64
  induction l with
  | nil => intro a b; rfl
  | cons cd tl ih =>
    intro a b
    simpa using ih (runMax a cd.high) (runMin b cd.low)

/-! ## Claim C6 -/

/-- C6: on the analysed series (the reverse of the exchange's most-recent-first
kline list, hence chronologically ascending), extraction succeeds for length
≥ 74 and returns exactly the window of 72 candles immediately preceding the
last two elements; the wall is the maximum high and the support the minimum low
over that window (highs positive, lows below math.MaxFloat64 — prices); the
breakout phase tests the close of the second-to-last element: wallBreak iff
close > wall, supportBreak iff close < support and no wall break, never both. -/
theorem c6_window_wall_support_breakout (c : List Candle) (hlen : 74 ≤ c.length)
    (hhigh : ∀ cd ∈ c, 0 < cd.high) (hlow : ∀ cd ∈ c, cd.low < maxFloat64) :
    ∃ wall support,
      extractCandlesForChecks c =
        .ok ((c.take (c.length - 2)).drop (c.length - 74)) wall support ∧
      ((c.take (c.length - 2)).drop (c.length - 74)).length = 72 ∧
      wall ∈ ((c.take (c.length - 2)).drop (c.length - 74)).map Candle.high ∧
      (∀ x ∈ ((c.take (c.length - 2)).drop (c.length - 74)).map Candle.high, x ≤ wall) ∧
      support ∈ ((c.take (c.length - 2)).drop (c.length - 74)).map Candle.low ∧
      (∀ x ∈ ((c.take (c.length - 2)).drop (c.length - 74)).map Candle.low, support ≤ x) ∧
      (∃ wb sb, cycleBreakoutPhase c = .breakout wb sb ∧
        (wb = true ↔ wall < (c.getD (c.length - 2) default).close) ∧
        (sb = true ↔ (¬wall < (c.getD (c.length - 2) default).close ∧
          (c.getD (c.length - 2) default).close < support)) ∧
        ¬(wb = true ∧ sb = true)) ∧
      (∀ ds : List Candle, List.Chain' (fun a b => b.timestamp ≤ a.timestamp) ds →
        List.Chain' (fun a b => a.timestamp ≤ b.timestamp) (fetchLast1000Candles ds)) := by
  have h74 : ((c.length : ℤ) - 74).toNat = c.length - 74 := by omega
  have h2 : ((c.length : ℤ) - 2).toNat = c.length - 2 := by omega
  set w := (c.take (c.length - 2)).drop (c.length - 74) with hw
  have hext : extractCandlesForChecks c =
      .ok w (wallSupportScan w).1 (wallSupportScan w).2 := by
    unfold extractCandlesForChecks goSlice
    rw [if_neg (by omega)]
    rw [if_pos (by refine ⟨by omega, by omega, by omega⟩)]
    rw [h74, h2]
  have hlen72 : w.length = 72 := by
    rw [hw, List.length_drop, List.length_take]
    omega
  have hsubw : ∀ cd ∈ w, cd ∈ c := by
    intro cd hcd
    exact List.mem_of_mem_take (List.mem_of_mem_drop hcd)
  have hne : ∃ cd, cd ∈ w := by
    apply List.exists_mem_of_ne_nil
    intro h0
    rw [h0] at hlen72
    simp at hlen72
  have hwall_mem : (w.map Candle.high).foldl runMax 0 ∈ w.map Candle.high := by
    rcases foldl_runMax_eq_or_mem (w.map Candle.high) 0 with h0 | h0
    · exfalso
      obtain ⟨cd, hcd⟩ := hne
      have hle : cd.high ≤ (w.map Candle.high).foldl runMax 0 :=
        foldl_runMax_mem_le _ 0 cd.high (List.mem_map_of_mem Candle.high hcd)
      rw [h0] at hle
      exact absurd (hhigh cd (hsubw cd hcd)) (not_lt.mpr hle)
    · exact h0
  have hsupp_mem : (w.map Candle.low).foldl runMin maxFloat64 ∈ w.map Candle.low := by
    rcases foldl_runMin_eq_or_mem (w.map Candle.low) maxFloat64 with h0 | h0
    · exfalso
      obtain ⟨cd, hcd⟩ := hne
      have hle : (w.map Candle.low).foldl runMin maxFloat64 ≤ cd.low :=
        foldl_runMin_le_mem _ maxFloat64 cd.low (List.mem_map_of_mem Candle.low hcd)
      rw [h0] at hle
      exact absurd (hlow cd (hsubw cd hcd)) (not_lt.mpr hle)
    · exact h0
  have hbreak0 : cycleBreakoutPhase c = .breakout
      (checkWallAndSupportBreak (c.getD (c.length - 2) default) w
        ((w.map Candle.high).foldl runMax 0) ((w.map Candle.low).foldl runMin maxFloat64)).1
      (checkWallAndSupportBreak (c.getD (c.length - 2) default) w
        ((w.map Candle.high).foldl runMax 0) ((w.map Candle.low).foldl runMin maxFloat64)).2 := by
    unfold cycleBreakoutPhase
    rw [hext, wallSupportScan_eq]
  have h72 : ¬w.length < 72 := by
    rw [hlen72]
    norm_num
  refine ⟨(w.map Candle.high).foldl runMax 0, (w.map Candle.low).foldl runMin maxFloat64,
    by rw [hext, wallSupportScan_eq], hlen72, hwall_mem,
    fun x hx => foldl_runMax_mem_le _ 0 x hx,
    hsupp_mem, fun x hx => foldl_runMin_le_mem _ maxFloat64 x hx, ?_, ?_⟩
  · unfold checkWallAndSupportBreak at hbreak0
    rw [if_neg h72] at hbreak0
    by_cases hb1 : (w.map Candle.high).foldl runMax 0 < (c.getD (c.length - 2) default).close
    · rw [if_pos hb1] at hbreak0
      exact ⟨true, false, hbreak0, iff_of_true rfl hb1,
        iff_of_false (by simp) (fun h => h.1 hb1), by simp⟩
    · by_cases hb2 : (c.getD (c.length - 2) default).close <
          (w.map Candle.low).foldl runMin maxFloat64
      · rw [if_neg hb1, if_pos hb2] at hbreak0
        exact ⟨false, true, hbreak0, iff_of_false (by simp) hb1,
          iff_of_true rfl ⟨hb1, hb2⟩, by simp⟩
      · rw [if_neg hb1, if_neg hb2] at hbreak0
        exact ⟨false, false, hbreak0, iff_of_false (by simp) hb1,
          iff_of_false (by simp) (fun h => hb2 h.2), by simp⟩
  · intro ds hds
    exact List.chain'_reverse.mpr hds

/-- 1 < math.MaxFloat64 (so integral candle lows satisfy the support-seed bound). -/
theorem one_lt_maxFloat64 : (1 : ℚ) < maxFloat64 := by
  unfold maxFloat64
  have e : (2 : ℚ) ^ 1024 = 2 ^ 971 * 2 ^ 53 := by
    rw [← pow_add]
  have h1 : (1 : ℚ) ≤ 2 ^ 971 := one_le_pow₀ (by norm_num)
  have h53 : (1 : ℚ) < 2 ^ 53 - 1 := by norm_num
  have hmul : (2 : ℚ) ^ 53 - 1 ≤ 2 ^ 971 * (2 ^ 53 - 1) :=
    le_mul_of_one_le_left (by norm_num) h1
  have expand : (2 : ℚ) ^ 971 * 2 ^ 53 - 2 ^ 971 = 2 ^ 971 * (2 ^ 53 - 1) := by ring
  rw [e, expand]
  exact lt_of_lt_of_le h53 hmul

/-- Witness for C6 on a concrete 74-candle ascending series. -/
theorem c6_window_wall_support_breakout_witness :
    ∃ wall support,
      extractCandlesForChecks (List.replicate 74 sampleCandle) =
        .ok (((List.replicate 74 sampleCandle).take 72).drop 0) wall support := by
  obtain ⟨wall, support, h1, -⟩ :=
    c6_window_wall_support_breakout (List.replicate 74 sampleCandle)
      (by decide) (by decide)
      (fun cd hcd => by rw [List.eq_of_mem_replicate hcd]; exact one_lt_maxFloat64)
  exact ⟨wall, support, by simpa using h1⟩

/-! ## Claim C9: helper lemmas on the validation blocks -/

theorem vtp_err_buy (o : Order) (tp : ℚ) (hside : o.side = .Buy)
    (htp : o.takeProfitPrice = some tp) (hle : tp ≤ o.orderPrice) :
    ∃ e, validateTakeProfit o = .error e := by
  unfold validateTakeProfit
  simp only [htp]
  by_cases h0 : tp ≤ 0
  · rw [if_pos h0]; exact ⟨_, rfl⟩
  · rw [if_neg h0, if_pos ⟨hside, hle⟩]; exact ⟨_, rfl⟩

theorem vtp_err_sell (o : Order) (tp : ℚ) (hside : o.side = .Sell)
    (htp : o.takeProfitPrice = some tp) (hle : o.orderPrice ≤ tp) :
    ∃ e, validateTakeProfit o = .error e := by
  unfold validateTakeProfit
  simp only [htp]
  by_cases h0 : tp ≤ 0
  · rw [if_pos h0]; exact ⟨_, rfl⟩
  · rw [if_neg h0]
    by_cases h1 : o.side = OrderSideType.Buy ∧ tp ≤ o.orderPrice
    · rw [if_pos h1]; exact ⟨_, rfl⟩
    · rw [if_neg h1, if_pos ⟨hside, hle⟩]; exact ⟨_, rfl⟩

theorem vsl_err_buy (o : Order) (sl : ℚ) (hside : o.side = .Buy)
    (hsl : o.stopLossPrice = some sl) (hle : o.orderPrice ≤ sl) :
    ∃ e, validateStopLoss o = .error e := by
  unfold validateStopLoss
  simp only [hsl]
  by_cases h0 : sl ≤ 0
  · rw [if_pos h0]; exact ⟨_, rfl⟩
  · rw [if_neg h0, if_pos ⟨hside, hle⟩]; exact ⟨_, rfl⟩

theorem vsl_err_sell (o : Order) (sl : ℚ) (hside : o.side = .Sell)
    (hsl : o.stopLossPrice = some sl) (hle : sl ≤ o.orderPrice) :
    ∃ e, validateStopLoss o = .error e := by
  unfold validateStopLoss
  simp only [hsl]
  by_cases h0 : sl ≤ 0
  · rw [if_pos h0]; exact ⟨_, rfl⟩
  · rw [if_neg h0]
    by_cases h1 : o.side = OrderSideType.Buy ∧ o.orderPrice ≤ sl
    · rw [if_pos h1]; exact ⟨_, rfl⟩
    · rw [if_neg h1, if_pos ⟨hside, hle⟩]; exact ⟨_, rfl⟩

theorem validateOrder_err_of_tp (o : Order) (htp : ∃ e, validateTakeProfit o = .error e) :
    isErr (validateOrder o) = true := by
  obtain ⟨e, he⟩ := htp
  unfold validateOrder
  split
  · rfl
  split
  · rfl
  split
  · rfl
  split
  · rfl
  split
  · rfl
  rw [he]
  rfl

theorem validateOrder_err_of_sl (o : Order) (hsl : ∃ e, validateStopLoss o = .error e) :
    isErr (validateOrder o) = true := by
  obtain ⟨e, he⟩ := hsl
  unfold validateOrder
  split
  · rfl
  split
  · rfl
  split
  · rfl
  split
  · rfl
  split
  · rfl
  cases hv : validateTakeProfit o with
  | error e2 => rfl
  | ok u => cases u; rw [he]; rfl

/-! ## Claim C9 -/

/-- C9: validation rejects any long (Buy) Order with take-profit ≤ order price
or stop-loss ≥ order price, and any short (Sell) Order with stop-loss ≤ order
price or take-profit ≥ order price; and an order failing validation is never
persisted — CreateOrder errors and leaves the store unchanged. -/
theorem c9_directional_validation_rejects :
    (∀ (o : Order) (tp : ℚ), o.side = .Buy → o.takeProfitPrice = some tp →
      tp ≤ o.orderPrice → isErr (validateOrder o) = true) ∧
    (∀ (o : Order) (sl : ℚ), o.side = .Buy → o.stopLossPrice = some sl →
      o.orderPrice ≤ sl → isErr (validateOrder o) = true) ∧
    (∀ (o : Order) (sl : ℚ), o.side = .Sell → o.stopLossPrice = some sl →
      sl ≤ o.orderPrice → isErr (validateOrder o) = true) ∧
    (∀ (o : Order) (tp : ℚ), o.side = .Sell → o.takeProfitPrice = some tp →
      o.orderPrice ≤ tp → isErr (validateOrder o) = true) ∧
    (∀ (o : Order) (cf af : Bool) (db : DBState), isErr (validateOrder o) = true →
      isErr (CreateOrder cf af db o).1 = true ∧ (CreateOrder cf af db o).2 = db) := by
  refine ⟨?_, ?_, ?_, ?_, ?_⟩
  · intro o tp hside htp hle
    exact validateOrder_err_of_tp o (vtp_err_buy o tp hside htp hle)
  · intro o sl hside hsl hle
    exact validateOrder_err_of_sl o (vsl_err_buy o sl hside hsl hle)
  · intro o sl hside hsl hle
    exact validateOrder_err_of_sl o (vsl_err_sell o sl hside hsl hle)
  · intro o tp hside htp hle
    exact validateOrder_err_of_tp o (vtp_err_sell o tp hside htp hle)
  · intro o cf af db hbad
    unfold CreateOrder
    cases hv : validateOrder o with
    | error e => exact ⟨rfl, rfl⟩
    | ok u => rw [hv] at hbad; simp [isErr] at hbad

/-- A long order with take-profit below its price. -/
def badBuyTP : Order := ⟨"b1", "DOGEUSDT", .Buy, 100, 10, some 95, none, 1, .Pending, 0, 0⟩

/-- A long order with stop-loss above its price. -/
def badBuySL : Order := ⟨"b2", "DOGEUSDT", .Buy, 100, 10, none, some 105, 1, .Pending, 0, 0⟩

/-- A short order with stop-loss below its price. -/
def badSellSL : Order := ⟨"b3", "DOGEUSDT", .Sell, 100, 10, none, some 95, 1, .Pending, 0, 0⟩

/-- A short order with take-profit above its price. -/
def badSellTP : Order := ⟨"b4", "DOGEUSDT", .Sell, 100, 10, some 105, none, 1, .Pending, 0, 0⟩

/-- Witness for C9 at the four concrete directionally inconsistent orders. -/
theorem c9_directional_validation_rejects_witness :
    isErr (validateOrder badBuyTP) = true ∧
    isErr (validateOrder badBuySL) = true ∧
    isErr (validateOrder badSellSL) = true ∧
    isErr (validateOrder badSellTP) = true ∧
    (isErr (CreateOrder false false dbSeed badBuyTP).1 = true ∧
      (CreateOrder false false dbSeed badBuyTP).2 = dbSeed) := by
  refine ⟨c9_directional_validation_rejects.1 badBuyTP 95 rfl rfl
      (by with_unfolding_all decide),
    c9_directional_validation_rejects.2.1 badBuySL 105 rfl rfl
      (by with_unfolding_all decide),
    c9_directional_validation_rejects.2.2.1 badSellSL 95 rfl rfl
      (by with_unfolding_all decide),
    c9_directional_validation_rejects.2.2.2.1 badSellTP 105 rfl rfl
      (by with_unfolding_all decide),
    c9_directional_validation_rejects.2.2.2.2 badBuyTP false false dbSeed
      (c9_directional_validation_rejects.1 badBuyTP 95 rfl rfl
        (by with_unfolding_all decide))⟩
